import Mathlib

/-!
Verification of the purchase-pipeline orchestrator in
`InternalPurchaseTool.py` against its natural-language specification.

The Python source is shallowly embedded: every remote call is represented by
the response the remote service produces (a `NetResult` / `XmlNetResult`
value held in a `World`), and each stage function is a Lean translation of
the control flow of the corresponding Python function, including its
exception-handling behaviour.  Python-level semantics that the source relies
on (truthiness, `str()`, `or`, `int()`, `str.strip()`, `str.split()`,
`dict.get`, `str.format`) are modelled explicitly below.
-/

namespace IPT

/-! ### A model of decoded JSON values (what `response.json()` yields) -/

/-- Decoded JSON values, as produced by `response.json()` in the source.
Numbers are modelled as integers: every numeric field in the payloads of
`InternalPurchaseTool.py` (expMonth, expYear, cvv, ids) is integral. -/
inductive Json where
  | null
  | bool (b : Bool)
  | num (n : Int)
  | str (s : String)
  | arr (elems : List Json)
  | obj (fields : List (String × Json))

/-- Python truthiness of a decoded JSON value (`if x:`):
`None`, `False`, `0`, `""`, `[]` and `{}` are falsy. -/
def pyTruthy : Json → Bool
  | .null => false
  | .bool b => b
  | .num n => n != 0
  | .str s => s != ""
  | .arr elems => !elems.isEmpty
  | .obj fields => !fields.isEmpty

/-- Python `a or b` on decoded JSON values: `a` if truthy, else `b`. -/
def pyOr (a b : Json) : Json := if pyTruthy a then a else b

/-- `d.get(key)` on the field list of a decoded JSON object: Python returns
`None` both when the key is missing and when the stored value is JSON
`null`, so both cases map to `Json.null`. -/
def jsonDictGet (fields : List (String × Json)) (key : String) : Json :=
  match fields.find? (fun p => p.1 = key) with
  | some p => p.2
  | none => Json.null

mutual

/-- Python `repr()` of a decoded JSON value. -/
def pyRepr : Json → String
  | .null => "None"
  | .bool true => "True"
  | .bool false => "False"
  | .num n => toString n
  | .str s => "\x27" ++ s ++ "\x27"
  | .arr elems => "[" ++ pyReprList elems ++ "]"
  | .obj fields => "\x7b" ++ pyReprFields fields ++ "\x7d"

/-- `repr()` of the comma-separated elements of a Python list. -/
def pyReprList : List Json → String
  | [] => ""
  | [x] => pyRepr x
  | x :: y :: xs => pyRepr x ++ ", " ++ pyReprList (y :: xs)

/-- `repr()` of the comma-separated entries of a Python dict. -/
def pyReprFields : List (String × Json) → String
  | [] => ""
  | [(k, v)] => "\x27" ++ k ++ "\x27: " ++ pyRepr v
  | (k, v) :: p :: ps =>
      "\x27" ++ k ++ "\x27: " ++ pyRepr v ++ ", " ++ pyReprFields (p :: ps)

end

/-- Python `str()` of a decoded JSON value: identity on strings,
`repr` on everything else (`str(None) = "None"`, `str(737) = "737"`, ...). -/
def pyStr : Json → String
  | .str s => s
  | v => pyRepr v

/-- Field lookup used in specification statements: `some` value iff the
JSON value is an object carrying the key. -/
def Json.getField : Json → String → Option Json
  | .obj fields, key => (fields.find? (fun p => p.1 = key)).map (fun p => p.2)
  | _, _ => none

/-- Array indexing used in specification statements. -/
def Json.getIdx : Json → Nat → Option Json
  | .arr elems, i => elems.get? i
  | _, _ => none

/-! ### Python string helpers used by the source -/

/-- Drop leading whitespace characters. -/
def stripLeft : List Char → List Char
  | [] => []
  | c :: cs => if c.isWhitespace then stripLeft cs else c :: cs

/-- Python `str.strip()`: remove leading and trailing whitespace. -/
def pyStrip (s : String) : String :=
  String.mk ((stripLeft ((stripLeft s.data).reverse)).reverse)

/-- Python `str.lower()` (ASCII case mapping, which covers the service
messages compared here). -/
def pyLower (s : String) : String := String.mk (s.data.map Char.toLower)

/-- Accumulating worker for `pySplit`: `acc` holds the reversed characters
of the token currently being read. -/
def pySplitAux : List Char → List Char → List String
  | [], acc => if acc.isEmpty then [] else [String.mk acc.reverse]
  | c :: cs, acc =>
    if c.isWhitespace then
      if acc.isEmpty then pySplitAux cs []
      else String.mk acc.reverse :: pySplitAux cs []
    else pySplitAux cs (c :: acc)

/-- Python `str.split()` with no separator: split on whitespace runs,
discarding empty tokens. -/
def pySplit (s : String) : List String := pySplitAux s.data []

/-- Parse a nonempty all-digit character list as a natural number; `none`
as soon as a non-digit appears or the list is empty. -/
def pyParseDigits (cs : List Char) : Option Nat :=
  if cs.isEmpty then none
  else
    cs.foldl
      (fun acc c =>
        match acc with
        | none => none
        | some n => if c.isDigit then some (n * 10 + (c.toNat - 48)) else none)
      (some 0)

/-- Python `int(s)` on a string, restricted to the shapes relevant here:
optional surrounding whitespace, an optional sign, then decimal digits
(underscore digit separators are not modelled).  `none` models the
`ValueError` that `int` raises on anything else. -/
def pyInt (s : String) : Option Int :=
  match (pyStrip s).data with
  | [] => none
  | c :: cs =>
    if c = '+' then (pyParseDigits cs).map (fun n => (n : Int))
    else if c = '-' then (pyParseDigits cs).map (fun n => -(n : Int))
    else (pyParseDigits (c :: cs)).map (fun n => (n : Int))

/-- Replace every occurrence of the `{env}` placeholder in a character list
by the characters of the environment label. -/
def pyFormatEnvChars (env : List Char) : List Char → List Char
  | [] => []
  | '\x7b' :: 'e' :: 'n' :: 'v' :: '\x7d' :: rest => env ++ pyFormatEnvChars env rest
  | c :: rest => c :: pyFormatEnvChars env rest

/-- Python `str.format` restricted to the single named field `env`, as used
by `get_api_url`: every occurrence of the placeholder is replaced by the
environment label. -/
def pyFormatEnv (template env : String) : String :=
  String.mk (pyFormatEnvChars env.data template.data)

/-! ### Configuration constants (lines 32-105 of the source) -/

def DEFAULT_ENV_SUBDOMAIN : String := "test"

def SHOPPER_API_BASE_URL_TEMPLATE : String :=
  "https://shopper.api.int.{env}-godaddy.com/v1"
def SSO_API_BASE_URL_TEMPLATE : String := "https://sso.{env}-godaddy.com/v1/api"
def PAYMENT_API_BASE_URL_TEMPLATE : String :=
  "https://payment.api.{env}-godaddy.com/v1"
def BASKET_API_URL_TEMPLATE : String :=
  "https://gdcomm.{env}.glbt1.gdg/WscgdBasket/WscgdBasket.dll"

/-- `DEFAULT_CARD_DETAILS` from the source, as the decoded JSON-like dict. -/
def DEFAULT_CARD_DETAILS : List (String × Json) :=
  [("pan", Json.str "4716885367556942"),
   ("type", Json.str "Visa"),
   ("expMonth", Json.num 12),
   ("expYear", Json.num 2029),
   ("cvv", Json.num 737),
   ("nameOnCard", Json.str "Manoj Paudel")]

/-- `DEFAULT_BILLING_CONTACT_INFO` from the source. -/
def DEFAULT_BILLING_CONTACT_INFO : Json :=
  Json.obj
    [("taxId", Json.str "26394653330"),
     ("contact", Json.obj
       [("nameFirst", Json.str "Manoj"),
        ("nameLast", Json.str "Paudel"),
        ("phone", Json.str "+15555555555"),
        ("organization", Json.str "Test"),
        ("addressMailing", Json.obj
          [("city", Json.str "Seattle"),
           ("country", Json.str "US"),
           ("postalCode", Json.str "98101"),
           ("state", Json.str "WA"),
           ("address1", Json.str "123 Main St"),
           ("address2", Json.str "Suite 100")])])]

def DEFAULT_CURRENCY : String := "USD"
def DEFAULT_BILLING_COUNTRY : String := "US"

def DEFAULT_ADD_TO_CART_COUNTRY_CODE : String := "US"
def DEFAULT_ADD_TO_CART_CURRENCY : String := "USD"
def DEFAULT_ADD_TO_CART_PRODUCT_ID : String := "8007"
def DEFAULT_SELLER_CONFIG_URI : String :=
  "/v1/31430a42-6f4f-4646-9595-305f614957be/seller-configs/4e0ea080-99ab-4973-85c6-391556676f08"
def DEFAULT_MARKET_ID : String := "en-us"

/-- `get_api_url` (source line 112): substitute the environment subdomain
into a URL template. -/
def get_api_url (template : String) (environment : String) : String :=
  pyFormatEnv template environment

/-- The `env_urls` dict built in `main` (source lines 733-738): exactly four
base addresses keyed by logical service name. -/
structure EnvUrls where
  SHOPPER_API_BASE_URL : String
  SSO_API_BASE_URL : String
  PAYMENT_API_BASE_URL : String
  BASKET_API_URL : String

/-- Construction of `env_urls` in `main`. -/
def build_env_urls (environment : String) : EnvUrls :=
  EnvUrls.mk
    (get_api_url SHOPPER_API_BASE_URL_TEMPLATE environment)
    (get_api_url SSO_API_BASE_URL_TEMPLATE environment)
    (get_api_url PAYMENT_API_BASE_URL_TEMPLATE environment)
    (get_api_url BASKET_API_URL_TEMPLATE environment)

/-! ### The network model

Each remote call is represented by the outcome the transport produces:
either an exception raised by `requests` before any response exists
(connection error, timeout), or a response with an HTTP status code, a
decoded JSON body (`none` when `response.json()` would raise a decode
error) and a raw text. -/

/-- Exceptions that can escape a stage function uncaught, or be recorded as
handled.  `unboundLocalError` models the `UnboundLocalError` raised inside
each `except` block when `getattr(response, "text", "")` is evaluated while
the local `response` was never assigned (the request itself raised). -/
inductive PyError where
  | httpError (status : Nat)
  | valueError
  | unboundLocalError
deriving DecidableEq

/-- Outcome of a `requests.post/patch` call returning JSON. -/
inductive NetResult where
  | response (status : Nat) (body : Option Json) (text : String)
  | connectionError
  | timeoutError

/-- Outcome of the basket SOAP call, whose response body is raw XML text. -/
inductive XmlNetResult where
  | response (status : Nat) (text : String)
  | connectionError
  | timeoutError

/-! ### Stage functions (the API functions of the source)

Each stage is a function of the response the service produced.
`Except.error e` means the Python function raises `e` to its caller;
`Except.ok v` means it returns `v`.  In every stage, a connection error or
timeout raised by `requests` itself leads to `UnboundLocalError`: the
`except` block evaluates `getattr(response, "text", "")` but the local
`response` was never assigned, and that exception is not caught. -/

/-- `create_shopper` (source lines 165-225).  Returns the shopper id
`str(response_json.get("shopperId"))` if that string is truthy, else
`None`.  Note that `str(None) = "None"` is truthy, so a body missing the
`shopperId` field yields `"None"`, not `None`. -/
def create_shopper (r : NetResult) : Except PyError (Option String) :=
  match r with
  | .connectionError => .error .unboundLocalError
  | .timeoutError => .error .unboundLocalError
  | .response status body _text =>
    if 400 ≤ status then .ok none  -- HTTPError, handled: logged, returns None
    else
      match body with
      | none => .ok none  -- JSONDecodeError, handled: logged, returns None
      | some (Json.obj fields) =>
        let shopper_id := pyStr (jsonDictGet fields "shopperId")
        if shopper_id ≠ "" then .ok (some shopper_id) else .ok none
      | some _ => .ok none  -- .get on a non-dict: AttributeError, handled silently

/-- `get_jwt_token` (source lines 228-267).  `jwt_token =
response_json.get("jwtToken") or response_json.get("data")`; returned when
truthy, else `None`. -/
def get_jwt_token (r : NetResult) : Except PyError (Option Json) :=
  match r with
  | .connectionError => .error .unboundLocalError
  | .timeoutError => .error .unboundLocalError
  | .response status body _text =>
    if 400 ≤ status then .ok none
    else
      match body with
      | none => .ok none
      | some (Json.obj fields) =>
        let jwt_token := pyOr (jsonDictGet fields "jwtToken") (jsonDictGet fields "data")
        if pyTruthy jwt_token then .ok (some jwt_token) else .ok none
      | some _ => .ok none

/-- `patch_shopper` (source lines 270-296).  Returns nothing; an HTTP error
is handled (logged via `handle_api_error`) and recorded here as
`some (httpError status)`, a success as `none`. -/
def patch_shopper (r : NetResult) : Except PyError (Option PyError) :=
  match r with
  | .connectionError => .error .unboundLocalError
  | .timeoutError => .error .unboundLocalError
  | .response status _body _text =>
    if 400 ≤ status then .ok (some (.httpError status)) else .ok none

/-- `encrypt_card` (source lines 299-335).  Returns the `ccEncrypted`
field of the response when truthy, else `None`. -/
def encrypt_card (r : NetResult) : Except PyError (Option Json) :=
  match r with
  | .connectionError => .error .unboundLocalError
  | .timeoutError => .error .unboundLocalError
  | .response status body _text =>
    if 400 ≤ status then .ok none
    else
      match body with
      | none => .ok none
      | some (Json.obj fields) =>
        let encrypted_number := jsonDictGet fields "ccEncrypted"
        if pyTruthy encrypted_number then .ok (some encrypted_number) else .ok none
      | some _ => .ok none

/-- The request body built by `create_payment_profile` (source lines
366-379).  The card number field carries exactly the
`encrypted_card_number` argument; expiry, cvv and holder name come from
`DEFAULT_CARD_DETAILS`; the `billing_country` parameter is accepted but not
used anywhere in the body, exactly as in the source. -/
def create_payment_profile_payload (encrypted_card_number : Json)
    (card_type _billing_country currency : String) : Json :=
  Json.obj
    [("creditCard", Json.obj
       [("number", encrypted_card_number),
        ("type", Json.str card_type),
        ("nameOnCard", jsonDictGet DEFAULT_CARD_DETAILS "nameOnCard"),
        ("expMonth", jsonDictGet DEFAULT_CARD_DETAILS "expMonth"),
        ("expYear", jsonDictGet DEFAULT_CARD_DETAILS "expYear"),
        ("cvv", jsonDictGet DEFAULT_CARD_DETAILS "cvv")]),
     ("status", Json.str "CREATE"),
     ("currency", Json.str currency),
     ("billTo", DEFAULT_BILLING_CONTACT_INFO),
     ("source", Json.str "checkout")]

/-- Result of `create_payment_profile`: the request body it sent and the
profile id it returned (`str(profileID)` when truthy, else `None`). -/
structure ProfileResult where
  payload : Json
  profileId : Option String

/-- `create_payment_profile` (source lines 338-398). -/
def create_payment_profile (r : NetResult) (encrypted_card_number : Json)
    (card_type billing_country currency : String) : Except PyError ProfileResult :=
  let payload := create_payment_profile_payload encrypted_card_number
    card_type billing_country currency
  match r with
  | .connectionError => .error .unboundLocalError
  | .timeoutError => .error .unboundLocalError
  | .response status body _text =>
    if 400 ≤ status then .ok (ProfileResult.mk payload none)
    else
      match body with
      | none => .ok (ProfileResult.mk payload none)
      | some (Json.obj fields) =>
        let payment_profile_id := jsonDictGet fields "profileID"
        if pyTruthy payment_profile_id then
          .ok (ProfileResult.mk payload (some (pyStr payment_profile_id)))
        else .ok (ProfileResult.mk payload none)
      | some _ => .ok (ProfileResult.mk payload none)

/-- The request body built by `perform_purchase` (source lines 504-513),
after `int(payment_profile_id)` succeeded with value `pid`. -/
def perform_purchase_payload (pid : Int) (cvv config_uri : String) : Json :=
  Json.obj
    [("standardBasket", Json.bool true),
     ("paymentDetails", Json.obj
       [("storedMethods", Json.arr
          [Json.obj [("id", Json.num pid), ("cvv", Json.str cvv)]]),
        ("sellerConfigUri", Json.str config_uri)])]

/-- Result of `perform_purchase`: the request body it sent and the order id
it returned. -/
structure PurchaseResult where
  payload : Json
  orderId : Option String

/-- `perform_purchase` (source lines 478-535).  The payload is built before
the `try` block, so `int(payment_profile_id)` failing raises a
`ValueError` that is neither caught nor classified and propagates to the
caller. -/
def perform_purchase (r : NetResult) (payment_profile_id cvv config_uri : String) :
    Except PyError PurchaseResult :=
  match pyInt payment_profile_id with
  | none => .error .valueError
  | some pid =>
    let payload := perform_purchase_payload pid cvv config_uri
    match r with
    | .connectionError => .error .unboundLocalError
    | .timeoutError => .error .unboundLocalError
    | .response status body _text =>
      if 400 ≤ status then .ok (PurchaseResult.mk payload none)
      else
        match body with
        | none => .ok (PurchaseResult.mk payload none)
        | some (Json.obj fields) =>
          let order_id := jsonDictGet fields "orderId"
          if pyTruthy order_id then
            .ok (PurchaseResult.mk payload (some (pyStr order_id)))
          else .ok (PurchaseResult.mk payload none)
        | some _ => .ok (PurchaseResult.mk payload none)

/-! ### XML model (ElementTree)

`xml.etree.ElementTree` parses a document into a tree of elements; each
element has a (namespace-expanded) tag, the text immediately following its
start tag (`None` when empty), and a list of child elements.  Attributes
and tail text play no role in the response interpretation of the source and are
skipped. -/

mutual

/-- A parsed XML element: tag, text content, children. -/
inductive XmlNode where
  | mk (tag : String) (text : Option String) (children : XmlForest)

/-- A list of sibling XML elements (a separate mutual inductive so that
recursion over the tree is structural). -/
inductive XmlForest where
  | nil
  | cons (head : XmlNode) (tail : XmlForest)

end

def XmlNode.tag : XmlNode → String
  | .mk t _ _ => t

def XmlNode.text : XmlNode → Option String
  | .mk _ x _ => x

def XmlNode.children : XmlNode → XmlForest
  | .mk _ _ c => c

/-- Convenience constructor for forests. -/
def XmlForest.ofList : List XmlNode → XmlForest
  | [] => .nil
  | n :: ns => .cons n (XmlForest.ofList ns)

mutual

/-- Search one subtree in document order: the node itself, then its
descendants. -/
def findDescNode : XmlNode → String → Option XmlNode
  | XmlNode.mk t x kids, tag =>
    if t = tag then some (XmlNode.mk t x kids)
    else findDescForest kids tag

/-- First match, in document order, of `element.find(".//tag")` over a
forest of sibling subtrees. -/
def findDescForest : XmlForest → String → Option XmlNode
  | XmlForest.nil, _ => none
  | XmlForest.cons n rest, tag =>
    match findDescNode n tag with
    | some m => some m
    | none => findDescForest rest tag

end

/-- `root.find(".//tag")`: first descendant of `root` (excluding `root`
itself) whose tag is `tag`. -/
def findDesc (root : XmlNode) (tag : String) : Option XmlNode :=
  findDescForest root.children tag

/-! ### Parsing raw text: entities, `html.unescape`, `ET.fromstring` -/

/-- Collect a maximal run of decimal digits. -/
def takeDigits : List Char → List Char × List Char
  | [] => ([], [])
  | c :: cs =>
    if c.isDigit then
      let (d, r) := takeDigits cs
      (c :: d, r)
    else ([], c :: cs)

/-- Decode one character/entity reference after a `&`: the five standard
XML entities and decimal numeric references.  `none` when what follows is
not a recognised reference. -/
def decodeEntity : List Char → Option (Char × List Char)
  | 'l' :: 't' :: ';' :: cs => some ('<', cs)
  | 'g' :: 't' :: ';' :: cs => some ('>', cs)
  | 'a' :: 'm' :: 'p' :: ';' :: cs => some ('&', cs)
  | 'q' :: 'u' :: 'o' :: 't' :: ';' :: cs => some ('"', cs)
  | 'a' :: 'p' :: 'o' :: 's' :: ';' :: cs => some (Char.ofNat 39, cs)
  | '#' :: cs =>
    match takeDigits cs with
    | (d, ';' :: rest) =>
      if d.isEmpty then none
      else some (Char.ofNat (d.foldl (fun a c => a * 10 + (c.toNat - 48)) 0), rest)
    | _ => none
  | _ => none

/-- One pass of `html.unescape` over a character list (fuelled; the fuel is
the length of the input, which suffices since every step consumes at least
one character).  Unrecognised references are kept verbatim, as in Python. -/
def htmlUnescapeChars : Nat → List Char → List Char
  | 0, cs => cs
  | _fuel + 1, [] => []
  | fuel + 1, '&' :: cs =>
    match decodeEntity cs with
    | some (d, rest) => d :: htmlUnescapeChars fuel rest
    | none => '&' :: htmlUnescapeChars fuel cs
  | fuel + 1, c :: cs => c :: htmlUnescapeChars fuel cs

/-- `html.unescape`, restricted to the standard XML entities and decimal
numeric references used by the escaped payload of the basket service. -/
def htmlUnescape (s : String) : String :=
  String.mk (htmlUnescapeChars s.data.length s.data)

/-- Characters allowed in an element name. -/
def isNameChar (c : Char) : Bool :=
  c.isAlphanum || c = '_' || c = ':' || c = '-' || c = '.'

/-- Take a maximal element name. -/
def takeName : List Char → String × List Char
  | [] => ("", [])
  | c :: cs =>
    if isNameChar c then
      let (n, rest) := takeName cs
      (String.mk (c :: n.data), rest)
    else ("", c :: cs)

/-- Skip to the end of a start tag (past attributes); returns whether the
tag was self-closing and the remaining input. -/
def skipToTagEnd : List Char → Option (Bool × List Char)
  | [] => none
  | '/' :: '>' :: cs => some (true, cs)
  | '>' :: cs => some (false, cs)
  | _ :: cs => skipToTagEnd cs

/-- Drop leading whitespace. -/
def skipWs : List Char → List Char
  | [] => []
  | c :: cs => if c.isWhitespace then skipWs cs else c :: cs

/-- Collect character data up to the next `<` (or end of input), decoding
entity references; `none` on a malformed reference (a `ParseError`). -/
def takeText : Nat → List Char → Option (List Char × List Char)
  | 0, _ => none
  | _fuel + 1, [] => some ([], [])
  | fuel + 1, c :: cs =>
    if c = '<' then some ([], c :: cs)
    else if c = '&' then
      match decodeEntity cs with
      | some (d, rest) =>
        match takeText fuel rest with
        | some (t, r) => some (d :: t, r)
        | none => none
      | none => none
    else
      match takeText fuel cs with
      | some (t, r) => some (c :: t, r)
      | none => none

mutual

/-- Parse one element: start tag, text, children, matching end tag.
Fuelled recursion; `none` models `ET.ParseError`. -/
def parseElement : Nat → List Char → Option (XmlNode × List Char)
  | 0, _ => none
  | fuel + 1, cs =>
    match cs with
    | '<' :: rest =>
      let (name, rest1) := takeName rest
      if name = "" then none
      else
        match skipToTagEnd rest1 with
        | none => none
        | some (true, rest2) => some (XmlNode.mk name none XmlForest.nil, rest2)
        | some (false, rest2) =>
          match takeText (rest2.length + 1) rest2 with
          | none => none
          | some (txt, rest3) =>
            match parseChildren fuel rest3 with
            | none => none
            | some (kids, rest4) =>
              match rest4 with
              | '<' :: '/' :: rest5 =>
                let (cname, rest6) := takeName rest5
                if cname = name then
                  match skipWs rest6 with
                  | '>' :: rest7 =>
                    some (XmlNode.mk name
                      (if txt.isEmpty then none else some (String.mk txt)) kids, rest7)
                  | _ => none
                else none
              | _ => none
    | _ => none

/-- Parse a (possibly empty) run of sibling elements, discarding the tail
text between them, until a closing tag or the end of input. -/
def parseChildren : Nat → List Char → Option (XmlForest × List Char)
  | 0, _ => none
  | fuel + 1, cs =>
    match cs with
    | '<' :: '/' :: _ => some (XmlForest.nil, cs)
    | '<' :: _ =>
      match parseElement fuel cs with
      | none => none
      | some (n, rest) =>
        match takeText (rest.length + 1) rest with
        | none => none
        | some (_tail, rest2) =>
          match parseChildren fuel rest2 with
          | none => none
          | some (ns, rest3) => some (XmlForest.cons n ns, rest3)
    | _ => some (XmlForest.nil, cs)

end

/-- `ET.fromstring`: parse a complete document into its root element;
`none` models `ET.ParseError` (malformed markup, or junk after the
document). -/
def xmlParse (s : String) : Option XmlNode :=
  let cs := skipWs s.data
  match parseElement (cs.length + 1) cs with
  | none => none
  | some (root, rest) => if (skipWs rest).isEmpty then some root else none

/-! ### The cart stage -/

/-- The `CartAdditionResult` tri-state of the spec, read off from the prints of
`add_item_to_cart`: `success` for the "Item added to cart successfully!"
path, `reportedFailure` for "... operation reported <msg>", and
`unparseableResponse` for both "Could not find `<return>` tag or its
content" and "Could not find `<MESSAGE>` in unescaped Basket API
response". -/
inductive CartAdditionResult where
  | success
  | reportedFailure (msg : String)
  | unparseableResponse
deriving DecidableEq

/-- The namespaced return tag `\x7burn:WscgdBasketService\x7dreturn`. -/
def nsReturnTag : String := "\x7burn:WscgdBasketService\x7dreturn"

/-- The `<return>` lookup of source lines 449-451: the namespaced variant
first, then the plain fallback. -/
def findReturn (root : XmlNode) : Option XmlNode :=
  match findDesc root nsReturnTag with
  | some n => some n
  | none => findDesc root "return"

/-- The response interpretation of `add_item_to_cart` (source lines
449-472), as a function of the parsed outer envelope.  `none` models the
inner `ET.fromstring` raising `ParseError`, which escapes to the enclosing
`except` block of the stage (where `handle_api_error` matches no branch and prints
nothing). -/
def interpret_basket_response (root : XmlNode) : Option CartAdditionResult :=
  match findReturn root with
  | none => some .unparseableResponse
  | some return_node =>
    match return_node.text with
    | none => some .unparseableResponse
    | some t =>
      if t ≠ "" then
        match xmlParse (htmlUnescape t) with
        | none => none
        | some inner_root =>
          match findDesc inner_root "MESSAGE" with
          | none => some .unparseableResponse
          | some message_node =>
            match message_node.text with
            | none => some .unparseableResponse
            | some basket_message =>
              if basket_message ≠ "" then
                if pyLower basket_message = "success" then some .success
                else some (.reportedFailure basket_message)
              else some .unparseableResponse
      else some .unparseableResponse

/-- `add_item_to_cart` (source lines 401-475).  `.ok none` means an
exception was raised after the response existed (HTTP error or parse
error) and was swallowed by the `except` block; `.ok (some c)` means the
interpretation completed with classification `c`. -/
def add_item_to_cart (r : XmlNetResult) : Except PyError (Option CartAdditionResult) :=
  match r with
  | .connectionError => .error .unboundLocalError
  | .timeoutError => .error .unboundLocalError
  | .response status text =>
    if 400 ≤ status then .ok none
    else
      match xmlParse text with
      | none => .ok none
      | some root => .ok (interpret_basket_response root)

/-! ### Pipeline drivers (`run_automatic_mode`, `run_manual_mode`)

A `World` fixes the outcome each backend produces during one run; the
encryption-helper outcome is a function of the card number submitted to
it, since that is the one request whose payload varies between runs in a
way the claims care about.  The drivers are translated match-by-match from
the source: `sys.exit(1)` becomes `RunExit.exited 1`, an uncaught Python
exception becomes `RunExit.crashed e`, and a run reaching the final report
becomes `RunExit.completed`. -/

/-- The seven stage operations, in pipeline order. -/
inductive Stage where
  | createShopper
  | getJwtToken
  | patchShopper
  | encryptCard
  | createPaymentProfile
  | addItemToCart
  | performPurchase
deriving DecidableEq

/-- How one pipeline run ends. -/
inductive RunExit where
  | exited (code : Nat)
  | crashed (e : PyError)
  | completed
deriving DecidableEq

/-- The backend responses available to one pipeline run. -/
structure World where
  shopperResponse : NetResult
  tokenResponse : NetResult
  patchResponse : NetResult
  encryptResponse : String → NetResult
  profileResponse : NetResult
  basketResponse : XmlNetResult
  purchaseResponse : NetResult

/-- Observable outcome of one driver run: the stages invoked in order, the
payment-registration request body (once built and sent), the purchase
request body (once built), how the run ended, and the order id. -/
structure RunResult where
  calls : List Stage
  profilePayload : Option Json
  purchasePayload : Option Json
  exit : RunExit
  orderId : Option String

/-- The operator answers to the four prompts of manual mode. -/
structure ManualInputs where
  shopperInput : String
  cardInput : String
  cartInput : String
  configInput : String

/-- The card-details override parsing of `run_manual_mode` (source lines
637-657): strip the input; empty keeps all defaults; exactly four
whitespace-separated fields override (pan, type, billing country,
currency); any other token count falls back to the defaults. -/
def manualCardFields (cardInput : String) :
    String × String × String × String :=
  let card_input := pyStrip cardInput
  if card_input = "" then
    (pyStr (jsonDictGet DEFAULT_CARD_DETAILS "pan"),
     pyStr (jsonDictGet DEFAULT_CARD_DETAILS "type"),
     DEFAULT_BILLING_COUNTRY, DEFAULT_CURRENCY)
  else
    match pySplit card_input with
    | [pan, card_type, billing_country, currency] =>
      (pan, card_type, billing_country, currency)
    | _ =>
      (pyStr (jsonDictGet DEFAULT_CARD_DETAILS "pan"),
       pyStr (jsonDictGet DEFAULT_CARD_DETAILS "type"),
       DEFAULT_BILLING_COUNTRY, DEFAULT_CURRENCY)

/-- The add-to-cart override parsing of `run_manual_mode` (source lines
671-691): same fallback discipline with three fields (country, currency,
product id). -/
def manualCartFields (cartInput : String) : String × String × String :=
  let cart_input := pyStrip cartInput
  if cart_input = "" then
    (DEFAULT_ADD_TO_CART_COUNTRY_CODE, DEFAULT_ADD_TO_CART_CURRENCY,
     DEFAULT_ADD_TO_CART_PRODUCT_ID)
  else
    match pySplit cart_input with
    | [country, currency, product] => (country, currency, product)
    | _ =>
      (DEFAULT_ADD_TO_CART_COUNTRY_CODE, DEFAULT_ADD_TO_CART_CURRENCY,
       DEFAULT_ADD_TO_CART_PRODUCT_ID)

/-- The shopper-identity resolution of `run_manual_mode` (source lines
612-621): empty input provisions a new shopper, nonempty input is accepted
as-is (and, being nonempty, is truthy). -/
def manual_shopper (w : World) (inp : ManualInputs) : Except PyError (Option String) :=
  if pyStrip inp.shopperInput = "" then create_shopper w.shopperResponse
  else .ok (some (pyStrip inp.shopperInput))

/-- Which stage calls the shopper-identity resolution of manual mode
performs. -/
def manual_shopper_calls (inp : ManualInputs) : List Stage :=
  if pyStrip inp.shopperInput = "" then [Stage.createShopper] else []

/-- `run_automatic_mode` (source lines 542-604): every parameter is a
built-in default. -/
def run_automatic_mode (w : World) : RunResult :=
  match create_shopper w.shopperResponse with
  | .error e => RunResult.mk [Stage.createShopper] none none (RunExit.crashed e) none
  | .ok none => RunResult.mk [Stage.createShopper] none none (RunExit.exited 1) none
  | .ok (some _shopper_id) =>
    match get_jwt_token w.tokenResponse with
    | .error e =>
      RunResult.mk [Stage.createShopper, Stage.getJwtToken] none none
        (RunExit.crashed e) none
    | .ok none =>
      RunResult.mk [Stage.createShopper, Stage.getJwtToken] none none
        (RunExit.exited 1) none
    | .ok (some _jwt_token) =>
      match patch_shopper w.patchResponse with
      | .error e =>
        RunResult.mk [Stage.createShopper, Stage.getJwtToken, Stage.patchShopper]
          none none (RunExit.crashed e) none
      | .ok _patch_outcome =>
        match encrypt_card
            (w.encryptResponse (pyStr (jsonDictGet DEFAULT_CARD_DETAILS "pan"))) with
        | .error e =>
          RunResult.mk [Stage.createShopper, Stage.getJwtToken, Stage.patchShopper,
            Stage.encryptCard] none none (RunExit.crashed e) none
        | .ok none =>
          RunResult.mk [Stage.createShopper, Stage.getJwtToken, Stage.patchShopper,
            Stage.encryptCard] none none (RunExit.exited 1) none
        | .ok (some encrypted_pan) =>
          match create_payment_profile w.profileResponse encrypted_pan
              (pyStr (jsonDictGet DEFAULT_CARD_DETAILS "type"))
              DEFAULT_BILLING_COUNTRY DEFAULT_CURRENCY with
          | .error e =>
            RunResult.mk [Stage.createShopper, Stage.getJwtToken, Stage.patchShopper,
              Stage.encryptCard, Stage.createPaymentProfile] none none
              (RunExit.crashed e) none
          | .ok pr =>
            match pr.profileId with
            | none =>
              RunResult.mk [Stage.createShopper, Stage.getJwtToken, Stage.patchShopper,
                Stage.encryptCard, Stage.createPaymentProfile] (some pr.payload) none
                (RunExit.exited 1) none
            | some payment_profile_id =>
              match add_item_to_cart w.basketResponse with
              | .error e =>
                RunResult.mk [Stage.createShopper, Stage.getJwtToken,
                  Stage.patchShopper, Stage.encryptCard, Stage.createPaymentProfile,
                  Stage.addItemToCart] (some pr.payload) none (RunExit.crashed e) none
              | .ok _cart =>
                match perform_purchase w.purchaseResponse payment_profile_id
                    (pyStr (jsonDictGet DEFAULT_CARD_DETAILS "cvv"))
                    DEFAULT_SELLER_CONFIG_URI with
                | .error e =>
                  RunResult.mk [Stage.createShopper, Stage.getJwtToken,
                    Stage.patchShopper, Stage.encryptCard, Stage.createPaymentProfile,
                    Stage.addItemToCart, Stage.performPurchase] (some pr.payload) none
                    (RunExit.crashed e) none
                | .ok res =>
                  RunResult.mk [Stage.createShopper, Stage.getJwtToken,
                    Stage.patchShopper, Stage.encryptCard, Stage.createPaymentProfile,
                    Stage.addItemToCart, Stage.performPurchase] (some pr.payload)
                    (some res.payload) RunExit.completed res.orderId

/-- `run_manual_mode` (source lines 607-712): parameters come from the
operator prompt answers, with defaults on empty or malformed input.  The
cart override is parsed exactly as in the source but, as there, has no
influence on anything the claims observe, because the return value of `add_item_to_cart` is ignored. -/
def run_manual_mode (w : World) (inp : ManualInputs) : RunResult :=
  match manual_shopper w inp with
  | .error e => RunResult.mk (manual_shopper_calls inp) none none (RunExit.crashed e) none
  | .ok none => RunResult.mk (manual_shopper_calls inp) none none (RunExit.exited 1) none
  | .ok (some _shopper_id) =>
    match get_jwt_token w.tokenResponse with
    | .error e =>
      RunResult.mk (manual_shopper_calls inp ++ [Stage.getJwtToken]) none none
        (RunExit.crashed e) none
    | .ok none =>
      RunResult.mk (manual_shopper_calls inp ++ [Stage.getJwtToken]) none none
        (RunExit.exited 1) none
    | .ok (some _jwt_token) =>
      match patch_shopper w.patchResponse with
      | .error e =>
        RunResult.mk (manual_shopper_calls inp ++ [Stage.getJwtToken,
          Stage.patchShopper]) none none (RunExit.crashed e) none
      | .ok _patch_outcome =>
        match encrypt_card (w.encryptResponse (manualCardFields inp.cardInput).1) with
        | .error e =>
          RunResult.mk (manual_shopper_calls inp ++ [Stage.getJwtToken,
            Stage.patchShopper, Stage.encryptCard]) none none (RunExit.crashed e) none
        | .ok none =>
          RunResult.mk (manual_shopper_calls inp ++ [Stage.getJwtToken,
            Stage.patchShopper, Stage.encryptCard]) none none (RunExit.exited 1) none
        | .ok (some encrypted_pan) =>
          match create_payment_profile w.profileResponse encrypted_pan
              (manualCardFields inp.cardInput).2.1
              (manualCardFields inp.cardInput).2.2.1
              (manualCardFields inp.cardInput).2.2.2 with
          | .error e =>
            RunResult.mk (manual_shopper_calls inp ++ [Stage.getJwtToken,
              Stage.patchShopper, Stage.encryptCard, Stage.createPaymentProfile])
              none none (RunExit.crashed e) none
          | .ok pr =>
            match pr.profileId with
            | none =>
              RunResult.mk (manual_shopper_calls inp ++ [Stage.getJwtToken,
                Stage.patchShopper, Stage.encryptCard, Stage.createPaymentProfile])
                (some pr.payload) none (RunExit.exited 1) none
            | some payment_profile_id =>
              match add_item_to_cart w.basketResponse with
              | .error e =>
                RunResult.mk (manual_shopper_calls inp ++ [Stage.getJwtToken,
                  Stage.patchShopper, Stage.encryptCard, Stage.createPaymentProfile,
                  Stage.addItemToCart]) (some pr.payload) none (RunExit.crashed e) none
              | .ok _cart =>
                match perform_purchase w.purchaseResponse payment_profile_id
                    (pyStr (jsonDictGet DEFAULT_CARD_DETAILS "cvv"))
                    (if pyStrip inp.configInput = "" then DEFAULT_SELLER_CONFIG_URI
                     else pyStrip inp.configInput) with
                | .error e =>
                  RunResult.mk (manual_shopper_calls inp ++ [Stage.getJwtToken,
                    Stage.patchShopper, Stage.encryptCard, Stage.createPaymentProfile,
                    Stage.addItemToCart, Stage.performPurchase]) (some pr.payload) none
                    (RunExit.crashed e) none
                | .ok res =>
                  RunResult.mk (manual_shopper_calls inp ++ [Stage.getJwtToken,
                    Stage.patchShopper, Stage.encryptCard, Stage.createPaymentProfile,
                    Stage.addItemToCart, Stage.performPurchase]) (some pr.payload)
                    (some res.payload) RunExit.completed res.orderId

/-! ### Concrete worlds, inputs and envelopes used to instantiate the
theorems below -/

/-- A world in which every backend succeeds. -/
def wAllOk : World :=
  World.mk
    (NetResult.response 200 (some (Json.obj [("shopperId", Json.str "1001")])) "")
    (NetResult.response 200 (some (Json.obj [("jwtToken", Json.str "JWT")])) "")
    (NetResult.response 200 none "")
    (fun _ =>
      NetResult.response 200 (some (Json.obj [("ccEncrypted", Json.str "ENCTOK")])) "")
    (NetResult.response 200 (some (Json.obj [("profileID", Json.num 555)])) "")
    (XmlNetResult.response 200 "<Envelope></Envelope>")
    (NetResult.response 200 (some (Json.obj [("orderId", Json.num 42)])) "")

/-- Like `wAllOk`, except that the token service answers HTTP 500. -/
def wTokenFail : World :=
  World.mk
    (NetResult.response 200 (some (Json.obj [("shopperId", Json.str "1001")])) "")
    (NetResult.response 500 none "Internal Server Error")
    (NetResult.response 200 none "")
    (fun _ =>
      NetResult.response 200 (some (Json.obj [("ccEncrypted", Json.str "ENCTOK")])) "")
    (NetResult.response 200 (some (Json.obj [("profileID", Json.num 555)])) "")
    (XmlNetResult.response 200 "<Envelope></Envelope>")
    (NetResult.response 200 (some (Json.obj [("orderId", Json.num 42)])) "")

/-- Like `wAllOk`, except that the contact-patch request suffers a
connection error. -/
def wPatchConn : World :=
  World.mk
    (NetResult.response 200 (some (Json.obj [("shopperId", Json.str "1001")])) "")
    (NetResult.response 200 (some (Json.obj [("jwtToken", Json.str "JWT")])) "")
    NetResult.connectionError
    (fun _ =>
      NetResult.response 200 (some (Json.obj [("ccEncrypted", Json.str "ENCTOK")])) "")
    (NetResult.response 200 (some (Json.obj [("profileID", Json.num 555)])) "")
    (XmlNetResult.response 200 "<Envelope></Envelope>")
    (NetResult.response 200 (some (Json.obj [("orderId", Json.num 42)])) "")

/-- Like `wAllOk`, except that the contact-patch request is answered with
HTTP 500. -/
def wPatch500 : World :=
  World.mk
    (NetResult.response 200 (some (Json.obj [("shopperId", Json.str "1001")])) "")
    (NetResult.response 200 (some (Json.obj [("jwtToken", Json.str "JWT")])) "")
    (NetResult.response 500 none "Internal Server Error")
    (fun _ =>
      NetResult.response 200 (some (Json.obj [("ccEncrypted", Json.str "ENCTOK")])) "")
    (NetResult.response 200 (some (Json.obj [("profileID", Json.num 555)])) "")
    (XmlNetResult.response 200 "<Envelope></Envelope>")
    (NetResult.response 200 (some (Json.obj [("orderId", Json.num 42)])) "")

/-- Empty answers to every manual prompt. -/
def inpDefaults : ManualInputs := ManualInputs.mk "" "" "" ""

/-- Manual answers overriding shopper id, card details and cart details. -/
def inpOverride : ManualInputs :=
  ManualInputs.mk "77777" "4111111111111111 Visa GB GBP" "DE EUR 1234" ""

/-- The parsed basket envelope of the success scenario: its namespaced
return node carries as text the escaped document
`&lt;response&gt;&lt;MESSAGE&gt;Success&lt;/MESSAGE&gt;&lt;/response&gt;`. -/
def cartSuccessEnvelope : XmlNode :=
  XmlNode.mk "Envelope" none (XmlForest.ofList
    [XmlNode.mk "Body" none (XmlForest.ofList
      [XmlNode.mk "AddItemResponse" none (XmlForest.ofList
        [XmlNode.mk nsReturnTag
          (some "&lt;response&gt;&lt;MESSAGE&gt;Success&lt;/MESSAGE&gt;&lt;/response&gt;")
          XmlForest.nil])])])

/-- A parsed basket envelope whose nested message is not "success". -/
def cartDeclinedEnvelope : XmlNode :=
  XmlNode.mk "Envelope" none (XmlForest.ofList
    [XmlNode.mk "Body" none (XmlForest.ofList
      [XmlNode.mk nsReturnTag
        (some "&lt;response&gt;&lt;MESSAGE&gt;Card declined&lt;/MESSAGE&gt;&lt;/response&gt;")
        XmlForest.nil])])

/-- Claim C8: for every environment label, the Environment Resolver
(`get_api_url` applied to the four templates in `main`) produces exactly
four base addresses - the four fields of `EnvUrls` - each equal to the
fixed template with the label substituted for the placeholder, hence each
containing the label verbatim, and each non-empty. -/
theorem C8_env_resolver_four_addresses (environment : String) :
    build_env_urls environment =
      EnvUrls.mk
        ("https://shopper.api.int." ++ (environment ++ "-godaddy.com/v1"))
        ("https://sso." ++ (environment ++ "-godaddy.com/v1/api"))
        ("https://payment.api." ++ (environment ++ "-godaddy.com/v1"))
        ("https://gdcomm." ++ (environment ++ ".glbt1.gdg/WscgdBasket/WscgdBasket.dll")) ∧
    (build_env_urls environment).SHOPPER_API_BASE_URL ≠ "" ∧
    (build_env_urls environment).SSO_API_BASE_URL ≠ "" ∧
    (build_env_urls environment).PAYMENT_API_BASE_URL ≠ "" ∧
    (build_env_urls environment).BASKET_API_URL ≠ "" := by
  have h1 : (build_env_urls environment).SHOPPER_API_BASE_URL =
      "https://shopper.api.int." ++ (environment ++ "-godaddy.com/v1") := rfl
  have h2 : (build_env_urls environment).SSO_API_BASE_URL =
      "https://sso." ++ (environment ++ "-godaddy.com/v1/api") := rfl
  have h3 : (build_env_urls environment).PAYMENT_API_BASE_URL =
      "https://payment.api." ++ (environment ++ "-godaddy.com/v1") := rfl
  have h4 : (build_env_urls environment).BASKET_API_URL =
      "https://gdcomm." ++ (environment ++ ".glbt1.gdg/WscgdBasket/WscgdBasket.dll") := rfl
  refine ⟨rfl, ?_, ?_, ?_, ?_⟩
  · rw [h1]
    intro h
    have hl := congrArg String.length h
    simp [String.length_append] at hl
    exact absurd hl.1 (by decide)
  · rw [h2]
    intro h
    have hl := congrArg String.length h
    simp [String.length_append] at hl
    exact absurd hl.1 (by decide)
  · rw [h3]
    intro h
    have hl := congrArg String.length h
    simp [String.length_append] at hl
    exact absurd hl.1 (by decide)
  · rw [h4]
    intro h
    have hl := congrArg String.length h
    simp [String.length_append] at hl
    exact absurd hl.1 (by decide)

/-- Claim C3 (code-bug demonstration): when the account-creation response
carries a shopper identifier, `create_shopper` returns it unchanged; but
when the HTTP 200 response body lacks the shopperId field, `create_shopper`
returns the truthy string "None" - the result of `str(None)` - rather than
no identity, contradicting the claim, the function docstring ("... or None
if creation fails") and its own unreachable missing-id branch. -/
theorem C3_shopper_id_extraction :
    create_shopper (NetResult.response 200 (some (Json.obj [])) "") = .ok (some "None") ∧
    create_shopper (NetResult.response 200
      (some (Json.obj [("shopperId", Json.str "12345")])) "") = .ok (some "12345") :=
  ⟨rfl, rfl⟩

/-- Claim C4 counterexample: a token response in which both fields are
present but the primary `jwtToken` field is the empty string makes
`get_jwt_token` return the fallback `data` value, not the primary value,
refuting the claim that the primary field is returned whenever both fields
are present. -/
theorem C4_counterexample_empty_primary :
    get_jwt_token (NetResult.response 200 (some (Json.obj
      [("jwtToken", Json.str ""), ("data", Json.str "fallback-token")])) "") =
      .ok (some (Json.str "fallback-token")) ∧
    Json.str "fallback-token" ≠ Json.str "" := ⟨rfl, by simp⟩

/-- Claim C4 as amended: `get_jwt_token` returns the primary `jwtToken`
value whenever that value is truthy (non-empty); it returns the fallback
`data` value when the primary is absent, null or otherwise falsy and the
fallback is truthy; and it returns no credential when both are absent or
falsy. -/
theorem C4_token_field_preference (status : Nat) (fields : List (String × Json))
    (text : String) (hstatus : status < 400) :
    (pyTruthy (jsonDictGet fields "jwtToken") = true →
      get_jwt_token (NetResult.response status (some (Json.obj fields)) text) =
        .ok (some (jsonDictGet fields "jwtToken"))) ∧
    (pyTruthy (jsonDictGet fields "jwtToken") = false →
      pyTruthy (jsonDictGet fields "data") = true →
      get_jwt_token (NetResult.response status (some (Json.obj fields)) text) =
        .ok (some (jsonDictGet fields "data"))) ∧
    (pyTruthy (jsonDictGet fields "jwtToken") = false →
      pyTruthy (jsonDictGet fields "data") = false →
      get_jwt_token (NetResult.response status (some (Json.obj fields)) text) =
        .ok none) := by
  have hns : ¬ (400 ≤ status) := Nat.not_le.mpr hstatus
  refine ⟨?_, ?_, ?_⟩
  · intro h1
    simp [get_jwt_token, hns, pyOr, h1]
  · intro h1 h2
    simp [get_jwt_token, hns, pyOr, h1, h2]
  · intro h1 h2
    simp [get_jwt_token, hns, pyOr, h1, h2]

theorem C4_token_field_preference_witness :
    get_jwt_token (NetResult.response 200 (some (Json.obj
      [("jwtToken", Json.str "primary-token"), ("data", Json.str "fallback-token")])) "") =
      .ok (some (Json.str "primary-token")) := by
  exact (C4_token_field_preference 200
    [("jwtToken", Json.str "primary-token"), ("data", Json.str "fallback-token")] ""
    (by decide)).1 (by decide)

/-- Claim C5: the cart-response interpretation classifies the envelope
whose return-content text is the escaped document
`&lt;response&gt;&lt;MESSAGE&gt;Success&lt;/MESSAGE&gt;&lt;/response&gt;`
as success, and in general classifies any envelope whose unescaped,
re-parsed return content carries a non-empty nested MESSAGE equal
case-insensitively to "success" as success, and any other non-empty
message as reported-failure carrying the literal message text. -/
theorem C5_cart_success_and_message_classification :
    interpret_basket_response cartSuccessEnvelope = some CartAdditionResult.success ∧
    (∀ (root return_node inner_root message_node : XmlNode) (t msg : String),
      findReturn root = some return_node →
      return_node.text = some t → t ≠ "" →
      xmlParse (htmlUnescape t) = some inner_root →
      findDesc inner_root "MESSAGE" = some message_node →
      message_node.text = some msg → msg ≠ "" →
      interpret_basket_response root =
        some (if pyLower msg = "success" then CartAdditionResult.success
              else CartAdditionResult.reportedFailure msg)) := by
  refine ⟨rfl, ?_⟩
  intro root return_node inner_root message_node t msg h1 h2 h3 h4 h5 h6 h7
  simp [interpret_basket_response, h1, h2, h3, h4, h5, h6, h7]
  split <;> rfl

theorem C5_cart_success_and_message_classification_witness :
    interpret_basket_response cartDeclinedEnvelope =
      some (CartAdditionResult.reportedFailure "Card declined") := by
  have h := C5_cart_success_and_message_classification.2 cartDeclinedEnvelope
    (XmlNode.mk nsReturnTag
      (some "&lt;response&gt;&lt;MESSAGE&gt;Card declined&lt;/MESSAGE&gt;&lt;/response&gt;")
      XmlForest.nil)
    (XmlNode.mk "response" none
      (XmlForest.cons (XmlNode.mk "MESSAGE" (some "Card declined") XmlForest.nil)
        XmlForest.nil))
    (XmlNode.mk "MESSAGE" (some "Card declined") XmlForest.nil)
    "&lt;response&gt;&lt;MESSAGE&gt;Card declined&lt;/MESSAGE&gt;&lt;/response&gt;"
    "Card declined" rfl rfl (by decide) rfl rfl rfl (by decide)
  exact h

/-- Claim C6: a cart-response envelope with no return-content node under
either the namespaced or the plain variant, or whose located return node
has empty (or absent) text, is classified as unparseable-response. -/
theorem C6_missing_return_unparseable (root : XmlNode) :
    (findDesc root nsReturnTag = none → findDesc root "return" = none →
      interpret_basket_response root = some CartAdditionResult.unparseableResponse) ∧
    (∀ return_node, findReturn root = some return_node →
      (return_node.text = none ∨ return_node.text = some "") →
      interpret_basket_response root = some CartAdditionResult.unparseableResponse) := by
  constructor
  · intro h1 h2
    have hret : findReturn root = none := by simp [findReturn, h1, h2]
    simp [interpret_basket_response, hret]
  · intro return_node h1 h2
    rcases h2 with h2 | h2 <;> simp [interpret_basket_response, h1, h2]

theorem C6_missing_return_unparseable_witness :
    interpret_basket_response (XmlNode.mk "Envelope" none XmlForest.nil) =
      some CartAdditionResult.unparseableResponse :=
  (C6_missing_return_unparseable (XmlNode.mk "Envelope" none XmlForest.nil)).1 rfl rfl

/-! Helper lemmas about digits, stripping and `int()` -/

theorem digit_not_whitespace (c : Char) (h : c.isDigit = true) :
    c.isWhitespace = false := by
  by_contra hw
  simp only [Bool.not_eq_false] at hw
  simp only [Char.isWhitespace, Bool.or_eq_true, decide_eq_true_eq] at hw
  rcases hw with ((h1 | h1) | h1) | h1 <;> subst h1 <;> exact absurd h (by decide)

theorem stripLeft_of_no_whitespace (cs : List Char)
    (h : ∀ c ∈ cs, c.isWhitespace = false) : stripLeft cs = cs := by
  cases cs with
  | nil => rfl
  | cons c cs =>
    simp [stripLeft, h c (List.mem_cons_self c cs)]

theorem pyStrip_of_digits (s : String) (h : ∀ c ∈ s.data, c.isDigit = true) :
    pyStrip s = s := by
  have hws : ∀ c ∈ s.data, c.isWhitespace = false :=
    fun c hc => digit_not_whitespace c (h c hc)
  have h1 : stripLeft s.data = s.data := stripLeft_of_no_whitespace s.data hws
  have h2 : stripLeft s.data.reverse = s.data.reverse :=
    stripLeft_of_no_whitespace s.data.reverse
      (fun c hc => hws c (List.mem_reverse.mp hc))
  simp [pyStrip, h1, h2]

theorem pyParseDigits_of_digits (cs : List Char) (hne : cs ≠ [])
    (h : ∀ c ∈ cs, c.isDigit = true) : ∃ n, pyParseDigits cs = some n := by
  have key : ∀ (ds : List Char), (∀ c ∈ ds, c.isDigit = true) → ∀ k : Nat,
      ∃ n, List.foldl
        (fun acc c =>
          match acc with
          | none => none
          | some n => if c.isDigit then some (n * 10 + (c.toNat - 48)) else none)
        (some k) ds = some n := by
    intro ds
    induction ds with
    | nil => intro _ k; exact ⟨k, rfl⟩
    | cons d ds ih =>
      intro hds k
      have hd := hds d (List.mem_cons_self d ds)
      simp only [List.foldl, hd, if_true]
      exact ih (fun c hc => hds c (List.mem_cons_of_mem d hc)) _
  have hne2 : cs.isEmpty = false := by
    cases cs with
    | nil => exact absurd rfl hne
    | cons c cs => rfl
  obtain ⟨n, hn⟩ := key cs h 0
  exact ⟨n, by simp [pyParseDigits, hne2, hn]⟩

theorem pyInt_of_digits (s : String) (hne : s ≠ "")
    (h : ∀ c ∈ s.data, c.isDigit = true) : ∃ n, pyInt s = some n := by
  have hdata : (pyStrip s).data = s.data := by rw [pyStrip_of_digits s h]
  have hne2 : s.data ≠ [] := by
    intro hnil
    apply hne
    have hmk : s = String.mk s.data := rfl
    rw [hmk, hnil]
  obtain ⟨c, cs, hcons⟩ := List.exists_cons_of_ne_nil hne2
  have hc : c.isDigit = true := h c (by rw [hcons]; exact List.mem_cons_self c cs)
  have hcp : ¬ (c = '+') := by
    intro he
    subst he
    exact absurd hc (by decide)
  have hcm : ¬ (c = '-') := by
    intro he
    subst he
    exact absurd hc (by decide)
  obtain ⟨n, hn⟩ := pyParseDigits_of_digits (c :: cs)
    (by simp) (by rw [← hcons]; exact h)
  refine ⟨(n : Int), ?_⟩
  simp [pyInt, hdata, hcons, hcp, hcm, hn]

theorem perform_purchase_valueError_iff (r : NetResult)
    (payment_profile_id cvv config_uri : String) :
    perform_purchase r payment_profile_id cvv config_uri =
      .error PyError.valueError ↔ pyInt payment_profile_id = none := by
  cases hp : pyInt payment_profile_id with
  | none => simp [perform_purchase, hp]
  | some pid =>
    cases r with
    | connectionError => simp [perform_purchase, hp]
    | timeoutError => simp [perform_purchase, hp]
    | response status body text =>
      simp only [perform_purchase, hp]
      constructor
      · intro h
        exfalso
        split at h
        · exact Except.noConfusion h
        · cases body with
          | none => exact Except.noConfusion h
          | some j =>
            cases j <;> try exact Except.noConfusion h
            rename_i fields
            rcases Bool.eq_false_or_eq_true (pyTruthy (jsonDictGet fields "orderId")) with hb | hb <;>
              simp only [hb] at h <;> exact Except.noConfusion h
      · intro h
        exact Option.noConfusion h

/-- Claim C10: `perform_purchase` converts the payment-method handle with
`int()` while building the request body, before its `try` block, so a
non-numeric handle raises a `ValueError` that is neither caught nor
classified and propagates to the caller; a handle consisting of decimal
digits converts successfully and can never produce that error. -/
theorem C10_purchase_handle_conversion (r : NetResult)
    (payment_profile_id cvv config_uri : String) :
    (pyInt payment_profile_id = none →
      perform_purchase r payment_profile_id cvv config_uri =
        .error PyError.valueError) ∧
    (payment_profile_id ≠ "" →
      (∀ c ∈ payment_profile_id.data, c.isDigit = true) →
      ∃ n, pyInt payment_profile_id = some n ∧
        perform_purchase r payment_profile_id cvv config_uri ≠
          .error PyError.valueError) := by
  constructor
  · intro h
    exact (perform_purchase_valueError_iff r payment_profile_id cvv config_uri).mpr h
  · intro hne hd
    obtain ⟨n, hn⟩ := pyInt_of_digits payment_profile_id hne hd
    refine ⟨n, hn, ?_⟩
    intro hcontra
    have := (perform_purchase_valueError_iff r payment_profile_id cvv config_uri).mp hcontra
    rw [hn] at this
    exact Option.noConfusion this

theorem C10_purchase_handle_conversion_witness :
    perform_purchase (NetResult.response 200 none "") "12a3" "737"
      DEFAULT_SELLER_CONFIG_URI = .error PyError.valueError ∧
    perform_purchase (NetResult.response 200 none "") "555" "737"
      DEFAULT_SELLER_CONFIG_URI ≠ .error PyError.valueError := by
  constructor
  · exact (C10_purchase_handle_conversion (NetResult.response 200 none "") "12a3" "737"
      DEFAULT_SELLER_CONFIG_URI).1 rfl
  · obtain ⟨n, _, hne⟩ := (C10_purchase_handle_conversion
      (NetResult.response 200 none "") "555" "737" DEFAULT_SELLER_CONFIG_URI).2
      (by decide) (by decide)
    exact hne

/-- Claim C1: in both drivers, whenever a fatal stage returns no result -
account provisioning no identity, token issuance no credential, card
encryption no token, or payment registration no handle - the run ends with
`sys.exit(1)` (exit code 1) at that point, with the recorded stage calls
ending at the failed stage, so no subsequent stage is ever invoked; in
particular a token-issuance failure leaves patch, encrypt, register, cart
and purchase uninvoked. -/
theorem C1_fatal_stage_failure_aborts (w : World) (inp : ManualInputs) :
    (create_shopper w.shopperResponse = .ok none →
      run_automatic_mode w =
        RunResult.mk [Stage.createShopper] none none (RunExit.exited 1) none) ∧
    (∀ sid, create_shopper w.shopperResponse = .ok (some sid) →
      get_jwt_token w.tokenResponse = .ok none →
      run_automatic_mode w =
        RunResult.mk [Stage.createShopper, Stage.getJwtToken] none none
          (RunExit.exited 1) none) ∧
    (∀ sid jwt pl, create_shopper w.shopperResponse = .ok (some sid) →
      get_jwt_token w.tokenResponse = .ok (some jwt) →
      patch_shopper w.patchResponse = .ok pl →
      encrypt_card (w.encryptResponse (pyStr (jsonDictGet DEFAULT_CARD_DETAILS "pan"))) =
        .ok none →
      run_automatic_mode w =
        RunResult.mk [Stage.createShopper, Stage.getJwtToken, Stage.patchShopper,
          Stage.encryptCard] none none (RunExit.exited 1) none) ∧
    (∀ sid jwt pl tok pr, create_shopper w.shopperResponse = .ok (some sid) →
      get_jwt_token w.tokenResponse = .ok (some jwt) →
      patch_shopper w.patchResponse = .ok pl →
      encrypt_card (w.encryptResponse (pyStr (jsonDictGet DEFAULT_CARD_DETAILS "pan"))) =
        .ok (some tok) →
      create_payment_profile w.profileResponse tok
        (pyStr (jsonDictGet DEFAULT_CARD_DETAILS "type"))
        DEFAULT_BILLING_COUNTRY DEFAULT_CURRENCY = .ok pr →
      pr.profileId = none →
      run_automatic_mode w =
        RunResult.mk [Stage.createShopper, Stage.getJwtToken, Stage.patchShopper,
          Stage.encryptCard, Stage.createPaymentProfile] (some pr.payload) none
          (RunExit.exited 1) none) ∧
    (manual_shopper w inp = .ok none →
      run_manual_mode w inp =
        RunResult.mk (manual_shopper_calls inp) none none (RunExit.exited 1) none) ∧
    (∀ sid, manual_shopper w inp = .ok (some sid) →
      get_jwt_token w.tokenResponse = .ok none →
      run_manual_mode w inp =
        RunResult.mk (manual_shopper_calls inp ++ [Stage.getJwtToken]) none none
          (RunExit.exited 1) none) ∧
    (∀ sid jwt pl, manual_shopper w inp = .ok (some sid) →
      get_jwt_token w.tokenResponse = .ok (some jwt) →
      patch_shopper w.patchResponse = .ok pl →
      encrypt_card (w.encryptResponse (manualCardFields inp.cardInput).1) = .ok none →
      run_manual_mode w inp =
        RunResult.mk (manual_shopper_calls inp ++ [Stage.getJwtToken,
          Stage.patchShopper, Stage.encryptCard]) none none (RunExit.exited 1) none) ∧
    (∀ sid jwt pl tok pr, manual_shopper w inp = .ok (some sid) →
      get_jwt_token w.tokenResponse = .ok (some jwt) →
      patch_shopper w.patchResponse = .ok pl →
      encrypt_card (w.encryptResponse (manualCardFields inp.cardInput).1) =
        .ok (some tok) →
      create_payment_profile w.profileResponse tok
        (manualCardFields inp.cardInput).2.1
        (manualCardFields inp.cardInput).2.2.1
        (manualCardFields inp.cardInput).2.2.2 = .ok pr →
      pr.profileId = none →
      run_manual_mode w inp =
        RunResult.mk (manual_shopper_calls inp ++ [Stage.getJwtToken,
          Stage.patchShopper, Stage.encryptCard, Stage.createPaymentProfile])
          (some pr.payload) none (RunExit.exited 1) none) := by
  refine ⟨?_, ?_, ?_, ?_, ?_, ?_, ?_, ?_⟩
  · intro h1
    simp [run_automatic_mode, h1]
  · intro sid h1 h2
    simp [run_automatic_mode, h1, h2]
  · intro sid jwt pl h1 h2 h3 h4
    simp [run_automatic_mode, h1, h2, h3, h4]
  · intro sid jwt pl tok pr h1 h2 h3 h4 h5 h6
    simp [run_automatic_mode, h1, h2, h3, h4, h5, h6]
  · intro h1
    simp [run_manual_mode, h1]
  · intro sid h1 h2
    simp [run_manual_mode, h1, h2]
  · intro sid jwt pl h1 h2 h3 h4
    simp [run_manual_mode, h1, h2, h3, h4]
  · intro sid jwt pl tok pr h1 h2 h3 h4 h5 h6
    simp [run_manual_mode, h1, h2, h3, h4, h5, h6]

theorem C1_fatal_stage_failure_aborts_witness :
    run_automatic_mode wTokenFail =
      RunResult.mk [Stage.createShopper, Stage.getJwtToken] none none
        (RunExit.exited 1) none :=
  (C1_fatal_stage_failure_aborts wTokenFail inpDefaults).2.1 "1001" rfl rfl

/-- Claim C2 (code-bug demonstration): a connection failure in the
non-fatal contact-patch stage is neither logged nor swallowed: the
`except` block evaluates `getattr(response, "text", "")` while the local
`response` is unbound, raising an uncaught `UnboundLocalError` that
crashes the run before payment registration is ever invoked - the calls
stop at `patchShopper` and the run ends `crashed`, contradicting the
claim that every non-fatal-stage failure is logged and swallowed with the
driver proceeding.  By contrast an HTTP 500 patch failure is swallowed and
the full pipeline still runs to completion, as the claim describes. -/
theorem C2_patch_connection_failure_crashes :
    patch_shopper NetResult.connectionError = .error PyError.unboundLocalError ∧
    run_automatic_mode wPatchConn =
      RunResult.mk [Stage.createShopper, Stage.getJwtToken, Stage.patchShopper]
        none none (RunExit.crashed PyError.unboundLocalError) none ∧
    run_automatic_mode wPatch500 =
      RunResult.mk [Stage.createShopper, Stage.getJwtToken, Stage.patchShopper,
        Stage.encryptCard, Stage.createPaymentProfile, Stage.addItemToCart,
        Stage.performPurchase]
        (some (create_payment_profile_payload (Json.str "ENCTOK") "Visa" "US" "USD"))
        (some (perform_purchase_payload 555 "737" DEFAULT_SELLER_CONFIG_URI))
        RunExit.completed (some "42") :=
  ⟨rfl, rfl, rfl⟩

/-! Helper lemmas characterising the request bodies the drivers send -/

theorem create_payment_profile_ok_payload (r : NetResult) (enc : Json)
    (ty co cu : String) (pr : ProfileResult)
    (h : create_payment_profile r enc ty co cu = .ok pr) :
    pr.payload = create_payment_profile_payload enc ty co cu := by
  cases r with
  | connectionError => simp [create_payment_profile] at h
  | timeoutError => simp [create_payment_profile] at h
  | response status body text =>
    simp only [create_payment_profile] at h
    split at h
    · rw [← Except.ok.inj h]
    · split at h <;> first
        | rw [← Except.ok.inj h]
        | (split at h <;> rw [← Except.ok.inj h])

theorem perform_purchase_ok_payload (r : NetResult) (pid_s cvv uri : String)
    (res : PurchaseResult) (h : perform_purchase r pid_s cvv uri = .ok res) :
    ∃ n, pyInt pid_s = some n ∧ res.payload = perform_purchase_payload n cvv uri := by
  cases hp : pyInt pid_s with
  | none => simp [perform_purchase, hp] at h
  | some n =>
    refine ⟨n, rfl, ?_⟩
    cases r with
    | connectionError => simp [perform_purchase, hp] at h
    | timeoutError => simp [perform_purchase, hp] at h
    | response status body text =>
      simp only [perform_purchase, hp] at h
      split at h
      · rw [← Except.ok.inj h]
      · split at h <;> first
          | rw [← Except.ok.inj h]
          | (split at h <;> rw [← Except.ok.inj h])

theorem run_manual_payload_shapes (w : World) (inp : ManualInputs) :
    (∀ q, (run_manual_mode w inp).profilePayload = some q →
      ∃ tok, encrypt_card (w.encryptResponse (manualCardFields inp.cardInput).1) =
          .ok (some tok) ∧
        q = create_payment_profile_payload tok (manualCardFields inp.cardInput).2.1
          (manualCardFields inp.cardInput).2.2.1
          (manualCardFields inp.cardInput).2.2.2) ∧
    (∀ p, (run_manual_mode w inp).purchasePayload = some p →
      ∃ n, p = perform_purchase_payload n (pyStr (jsonDictGet DEFAULT_CARD_DETAILS "cvv"))
        (if pyStrip inp.configInput = "" then DEFAULT_SELLER_CONFIG_URI
         else pyStrip inp.configInput)) := by
  unfold run_manual_mode
  cases hms : manual_shopper w inp with
  | error e => simp
  | ok o =>
    cases o with
    | none => simp
    | some sid =>
      dsimp only
      cases hjt : get_jwt_token w.tokenResponse with
      | error e => simp
      | ok o2 =>
        cases o2 with
        | none => simp
        | some jwt =>
          dsimp only
          cases hps : patch_shopper w.patchResponse with
          | error e => simp
          | ok pl =>
            dsimp only
            cases hec : encrypt_card
                (w.encryptResponse (manualCardFields inp.cardInput).1) with
            | error e => simp
            | ok o3 =>
              cases o3 with
              | none => simp
              | some tok =>
                dsimp only
                cases hpp : create_payment_profile w.profileResponse tok
                    (manualCardFields inp.cardInput).2.1
                    (manualCardFields inp.cardInput).2.2.1
                    (manualCardFields inp.cardInput).2.2.2 with
                | error e => simp
                | ok pr =>
                  dsimp only
                  have hpay := create_payment_profile_ok_payload _ _ _ _ _ _ hpp
                  cases hid : pr.profileId with
                  | none =>
                    dsimp only
                    constructor
                    · intro q hq
                      simp only [Option.some.injEq] at hq
                      exact ⟨tok, rfl, by rw [← hq, hpay]⟩
                    · intro p hp
                      simp at hp
                  | some pid =>
                    dsimp only
                    cases hai : add_item_to_cart w.basketResponse with
                    | error e =>
                      dsimp only
                      constructor
                      · intro q hq
                        simp only [Option.some.injEq] at hq
                        exact ⟨tok, rfl, by rw [← hq, hpay]⟩
                      · intro p hp
                        simp at hp
                    | ok cart =>
                      dsimp only
                      cases hpu : perform_purchase w.purchaseResponse pid
                          (pyStr (jsonDictGet DEFAULT_CARD_DETAILS "cvv"))
                          (if pyStrip inp.configInput = "" then DEFAULT_SELLER_CONFIG_URI
                           else pyStrip inp.configInput) with
                      | error e =>
                        dsimp only
                        constructor
                        · intro q hq
                          simp only [Option.some.injEq] at hq
                          exact ⟨tok, rfl, by rw [← hq, hpay]⟩
                        · intro p hp
                          simp at hp
                      | ok res =>
                        dsimp only
                        obtain ⟨n, hn, hresp⟩ := perform_purchase_ok_payload _ _ _ _ _ hpu
                        constructor
                        · intro q hq
                          simp only [Option.some.injEq] at hq
                          exact ⟨tok, rfl, by rw [← hq, hpay]⟩
                        · intro p hp
                          simp only [Option.some.injEq] at hp
                          exact ⟨n, by rw [← hp, hresp]⟩

theorem run_automatic_payload_shapes (w : World) :
    ∀ q, (run_automatic_mode w).profilePayload = some q →
      ∃ tok, encrypt_card
          (w.encryptResponse (pyStr (jsonDictGet DEFAULT_CARD_DETAILS "pan"))) =
          .ok (some tok) ∧
        q = create_payment_profile_payload tok
          (pyStr (jsonDictGet DEFAULT_CARD_DETAILS "type"))
          DEFAULT_BILLING_COUNTRY DEFAULT_CURRENCY := by
  unfold run_automatic_mode
  cases hcs : create_shopper w.shopperResponse with
  | error e => simp
  | ok o =>
    cases o with
    | none => simp
    | some sid =>
      dsimp only
      cases hjt : get_jwt_token w.tokenResponse with
      | error e => simp
      | ok o2 =>
        cases o2 with
        | none => simp
        | some jwt =>
          dsimp only
          cases hps : patch_shopper w.patchResponse with
          | error e => simp
          | ok pl =>
            dsimp only
            cases hec : encrypt_card
                (w.encryptResponse (pyStr (jsonDictGet DEFAULT_CARD_DETAILS "pan"))) with
            | error e => simp
            | ok o3 =>
              cases o3 with
              | none => simp
              | some tok =>
                dsimp only
                cases hpp : create_payment_profile w.profileResponse tok
                    (pyStr (jsonDictGet DEFAULT_CARD_DETAILS "type"))
                    DEFAULT_BILLING_COUNTRY DEFAULT_CURRENCY with
                | error e => simp
                | ok pr =>
                  dsimp only
                  have hpay := create_payment_profile_ok_payload _ _ _ _ _ _ hpp
                  cases hid : pr.profileId with
                  | none =>
                    dsimp only
                    intro q hq
                    simp only [Option.some.injEq] at hq
                    exact ⟨tok, rfl, by rw [← hq, hpay]⟩
                  | some pid =>
                    dsimp only
                    cases hai : add_item_to_cart w.basketResponse with
                    | error e =>
                      dsimp only
                      intro q hq
                      simp only [Option.some.injEq] at hq
                      exact ⟨tok, rfl, by rw [← hq, hpay]⟩
                    | ok cart =>
                      dsimp only
                      cases hpu : perform_purchase w.purchaseResponse pid
                          (pyStr (jsonDictGet DEFAULT_CARD_DETAILS "cvv"))
                          DEFAULT_SELLER_CONFIG_URI with
                      | error e =>
                        dsimp only
                        intro q hq
                        simp only [Option.some.injEq] at hq
                        exact ⟨tok, rfl, by rw [← hq, hpay]⟩
                      | ok res =>
                        dsimp only
                        intro q hq
                        simp only [Option.some.injEq] at hq
                        exact ⟨tok, rfl, by rw [← hq, hpay]⟩

/-- Claim C7: the card-number field of the payment-registration request body
carries exactly the encrypted token returned by the encryption stage, in
both drivers; and the outcome of the manual driver depends on the operator
PAN override only through the response of the encryption service - two runs
whose card overrides agree on type, billing country and currency and whose
PANs receive the same encryption response are identical, so the raw PAN
itself never reaches the registration request. -/
theorem C7_raw_pan_never_registered (w : World) (inp : ManualInputs) :
    (∀ q, (run_automatic_mode w).profilePayload = some q →
      ∃ tok, encrypt_card
          (w.encryptResponse (pyStr (jsonDictGet DEFAULT_CARD_DETAILS "pan"))) =
          .ok (some tok) ∧
        (q.getField "creditCard").bind (fun c => c.getField "number") = some tok) ∧
    (∀ q, (run_manual_mode w inp).profilePayload = some q →
      ∃ tok, encrypt_card (w.encryptResponse (manualCardFields inp.cardInput).1) =
          .ok (some tok) ∧
        (q.getField "creditCard").bind (fun c => c.getField "number") = some tok) ∧
    (∀ inp2 : ManualInputs, inp.shopperInput = inp2.shopperInput →
      inp.cartInput = inp2.cartInput → inp.configInput = inp2.configInput →
      (manualCardFields inp.cardInput).2 = (manualCardFields inp2.cardInput).2 →
      w.encryptResponse (manualCardFields inp.cardInput).1 =
        w.encryptResponse (manualCardFields inp2.cardInput).1 →
      run_manual_mode w inp = run_manual_mode w inp2) := by
  refine ⟨?_, ?_, ?_⟩
  · intro q hq
    obtain ⟨tok, htok, hq2⟩ := run_automatic_payload_shapes w q hq
    exact ⟨tok, htok, by subst hq2; exact rfl⟩
  · intro q hq
    obtain ⟨tok, htok, hq2⟩ := (run_manual_payload_shapes w inp).1 q hq
    exact ⟨tok, htok, by subst hq2; exact rfl⟩
  · intro inp2 h1 h2 h3 h4 h5
    unfold run_manual_mode manual_shopper manual_shopper_calls
    rw [h1, h3, h4, h5]

theorem C7_raw_pan_never_registered_witness :
    ∃ tok, encrypt_card
        (wAllOk.encryptResponse (manualCardFields inpOverride.cardInput).1) =
        .ok (some tok) ∧
      ((create_payment_profile_payload (Json.str "ENCTOK") "Visa" "GB" "GBP").getField
        "creditCard").bind (fun c => c.getField "number") = some tok :=
  (C7_raw_pan_never_registered wAllOk inpOverride).2.1
    (create_payment_profile_payload (Json.str "ENCTOK") "Visa" "GB" "GBP") rfl

/-- Claim C9: in manual mode, whatever the operator answers at any
prompt, the settlement request body always carries the built-in default
CVV (str of `DEFAULT_CARD_DETAILS` cvv, "737"), and the registration
request body always carries the default cvv, expiry month and year, and
holder name - the card override can affect only PAN (via encryption),
type, billing country and currency. -/
theorem C9_settlement_cvv_always_default (w : World) (inp : ManualInputs) :
    (∀ p, (run_manual_mode w inp).purchasePayload = some p →
      (((p.getField "paymentDetails").bind (fun d => d.getField "storedMethods")).bind
        (fun s => s.getIdx 0)).bind (fun m => m.getField "cvv") =
        some (Json.str (pyStr (jsonDictGet DEFAULT_CARD_DETAILS "cvv")))) ∧
    (∀ q, (run_manual_mode w inp).profilePayload = some q →
      (q.getField "creditCard").bind (fun c => c.getField "cvv") =
        some (jsonDictGet DEFAULT_CARD_DETAILS "cvv") ∧
      (q.getField "creditCard").bind (fun c => c.getField "expMonth") =
        some (jsonDictGet DEFAULT_CARD_DETAILS "expMonth") ∧
      (q.getField "creditCard").bind (fun c => c.getField "expYear") =
        some (jsonDictGet DEFAULT_CARD_DETAILS "expYear") ∧
      (q.getField "creditCard").bind (fun c => c.getField "nameOnCard") =
        some (jsonDictGet DEFAULT_CARD_DETAILS "nameOnCard")) := by
  constructor
  · intro p hp
    obtain ⟨n, hp2⟩ := (run_manual_payload_shapes w inp).2 p hp
    subst hp2
    exact rfl
  · intro q hq
    obtain ⟨tok, _, hq2⟩ := (run_manual_payload_shapes w inp).1 q hq
    rw [hq2]
    exact ⟨rfl, rfl, rfl, rfl⟩

theorem C9_settlement_cvv_always_default_witness :
    ((((perform_purchase_payload 555 "737" DEFAULT_SELLER_CONFIG_URI).getField
      "paymentDetails").bind (fun d => d.getField "storedMethods")).bind
      (fun s => s.getIdx 0)).bind (fun m => m.getField "cvv") =
      some (Json.str (pyStr (jsonDictGet DEFAULT_CARD_DETAILS "cvv"))) :=
  (C9_settlement_cvv_always_default wAllOk inpOverride).1
    (perform_purchase_payload 555 "737" DEFAULT_SELLER_CONFIG_URI) rfl

end IPT
